import Mathlib

/-!
Shallow embedding of `samcli/commands/deploy/guided_context.py`, the guided
`sam deploy` prompt flow (class `GuidedContext`).

Terminal interactions (`click.prompt`, `click.confirm`, `click.echo`/`secho`)
are modelled as events recorded in a trace; the user's replies and the results
of the external collaborators (stack resolver, authorization scanner,
signer-config scanner, image tag resolver, ECR-URL validator, bucket
provisioner) are inputs of the embedded functions, since their code lives in
other modules.  A raised `GuidedDeployFailedError` is `Except.error msg`.
Python dictionaries are insertion-ordered association lists; Python `None` is
`Option.none`; Python truthiness of strings and lists (`""` and `[]` falsy)
is spelled out explicitly wherever the source relies on it.
-/

namespace GuidedDeploy

/-- A subset of Python values that can appear as a template parameter
`Default`; `pyStr` is Python `str` on these. -/
inductive PyVal where
  | pstr (s : String)
  | pint (n : Int)
  | pbool (b : Bool)
deriving DecidableEq, Repr

/-- Python `str` on a `PyVal`. -/
def pyStr : PyVal → String
  | .pstr s => s
  | .pint n => toString n
  | .pbool b => if b then "True" else "False"

/-- Python `a or b` for an optional string `a`: both `None` and `""` are
falsy, so they fall through to `b`. -/
def pyOrS (a : Option String) (b : String) : String :=
  match a with
  | some s => if s = "" then b else s
  | none => b

/-- Python dict assignment `d[k] = v` on an insertion-ordered association
list: an existing key keeps its position, a new key is appended. -/
def upsert (k : String) (v : α) : List (String × α) → List (String × α)
  | [] => [(k, v)]
  | (k₀, v₀) :: rest => if k₀ = k then (k, v) :: rest else (k₀, v₀) :: upsert k v rest

/-- Which section of the flow produced a terminal interaction (the
instrumentation used to state which prompt steps ran). -/
inductive Step where
  | header | stackName | region | parameters | imageRepo | changeset
  | capabilities | authorization | codeSigning | saveConfig | bucket
deriving DecidableEq, Repr

/-- One terminal interaction.  `tag` records which template parameter /
resource / signing target the interaction is for (`""` when not applicable);
`defaultVal` is the pre-filled default shown by click (`none` models Python
`default=None`, i.e. no pre-filled default, input required). -/
inductive Event where
  | prompt (step : Step) (tag : String) (text : String)
      (defaultVal : Option String) (hideInput : Bool)
  | confirm (step : Step) (tag : String) (text : String) (defaultVal : Option Bool)
  | echo (step : Step) (text : String)
deriving DecidableEq, Repr

/-- The flow section an event belongs to. -/
def Event.step : Event → Step
  | .prompt s _ _ _ _ => s
  | .confirm s _ _ _ => s
  | .echo s _ => s

/-- The parameter / resource / target an event is for. -/
def Event.tag : Event → String
  | .prompt _ t _ _ _ => t
  | .confirm _ t _ _ => t
  | .echo _ _ => ""

/-- Properties of one overridable template parameter, as the source reads
them: `parameter_properties.get("NoEcho", False)` and
`parameter_properties.get("Default", "")`. -/
structure ParamProps where
  noEcho : Bool
  defaultVal : Option PyVal
deriving DecidableEq, Repr

/-- The pieces of the resolved iac `Stack` object that `guided_context.py`
reads.  `name = ""` models a stack whose `name` attribute is falsy
(Python `None` or `""`): the source only ever tests its truthiness. -/
structure IacStack where
  name : String
  originDir : String
  overrideableParameters : List (String × ParamProps)
  hasImageAssets : Bool
  imageFunctionIds : List String
deriving DecidableEq, Repr

/-- One value of the `SamFunctionProvider(stacks).functions` dict:
`isImage` is `packagetype == IMAGE`. -/
structure SamFn where
  isImage : Bool
  imageuri : String
deriving DecidableEq, Repr

/-- An entry of the `self.signing_profiles` dict:
`{"profile_name": ..., "profile_owner": ...}`. -/
structure SigningEntry where
  profileName : String
  profileOwner : String
deriving DecidableEq, Repr

/-- One entry of the collected parameter-override mapping:
`{"Value": ..., "Hidden": ...}`. -/
structure ParamOverride where
  value : String
  hidden : Bool
deriving DecidableEq, Repr

/-- The two failures of the external `tag_translation` collaborator:
`NonLocalImageException` and `NoImageFoundException`. -/
inductive TagErr where
  | nonLocal
  | noImage
deriving DecidableEq, Repr

/-- What `self._parameter_overrides` holds after `guided_prompts`: the
prompted mapping (key to Value/Hidden records), or the raw command-line
mapping it falls back to when nothing was prompted (line 196-198). -/
inductive POVal where
  | prompted (m : List (String × ParamOverride))
  | fromCmdline (m : List (String × String))
deriving DecidableEq, Repr

/-- The fields of a `GuidedContext` object that `guided_prompts` and `run`
read or write (the session state).  Names follow the Python attributes;
`s3Prefix`-style casing replaces snake case. -/
structure Ctx where
  stackName : String
  imageRepository : Option String
  imageRepositories : Option (List (String × String))
  region : Option String
  profile : Option String
  confirmChangeset : Option Bool
  capabilities : Option (List String)
  parameterOverridesFromCmdline : Option (List (String × String))
  saveToConfig : Bool
  configEnv : Option String
  configFile : Option String
  guidedStackName : Option String
  guidedS3Bucket : Option String
  guidedImageRepositories : Option (List (String × String))
  guidedS3Pfx : Option String
  guidedRegion : Option String
  guidedProfile : Option String
  signingProfiles : Option (List (String × SigningEntry))
  capabilitiesOut : Option (List String)
  parameterOverridesOut : Option POVal
  iacStack : Option IacStack
  templateFile : Option String
deriving Repr

/-- The results and behaviour of the external collaborators during one run of
the flow; the claims quantify over these. -/
structure Collab where
  sessionRegion : Option String
  findStackByName : String → Option IacStack
  defaultStack : Option IacStack
  functions : List (String × SamFn)
  authResults : List (String × Bool)
  signerFunctions : List String
  signerLayers : List (String × List String)
  extractProfile : String → List (String × SigningEntry) → Option String × Option String
  isEcrUrl : String → Bool
  tagTranslation : String → Except TagErr String
  manageStack : String

/-- The user's replies: for each prompt, the value `click.prompt` or
`click.confirm` returns (already accounting for default substitution on an
empty reply). -/
structure Answers where
  stackName : String
  region : String
  param : String → String
  imageRepo : String → String
  confirmChangeset : Bool
  capabilitiesConfirm : Bool
  capabilities : List String
  authOkay : String → Bool
  signCode : Bool
  profileName : String → String
  profileOwner : String → String
  saveToConfig : Bool
  configFile : String
  configEnv : String

/-- Modelled from the spec: constant `DEFAULT_ENV` of
`samcli.lib.config.samconfig` (module not under the sources); its exact value
is immaterial to every claim. -/
def DEFAULT_ENV : String := "default"

/-- Modelled from the spec: constant `DEFAULT_CONFIG_FILE_NAME` of
`samcli.lib.config.samconfig` (module not under the sources). -/
def DEFAULT_CONFIG_FILE_NAME : String := "samconfig.toml"

/-- `self.start_bold`. -/
def startBold : String := "\x1b[1m"

/-- `self.end_bold`. -/
def endBold : String := "\x1b[0m"

/-- The `GuidedDeployFailedError` message of `_get_iac_stack` (lines 106-110). -/
def noStackMsg (provided : String) : String :=
  "There is no stack with name \x27" ++ provided ++ "\x27. " ++
  "If you have specified --stack-name, specify the correct stack name " ++
  "or remove --stack-name to use default."

/-- `GuidedContext._get_iac_stack` (lines 100-114): resolve the stack by name
(`find_stack_by_name(provided) or default_stack`), fail when nothing resolves
or the resolved stack has a truthy name different from the request; on success
return the stack and the new `self.stack_name`
(`stack.name if stack.name else provided_stack_name`). -/
def getIacStack (find : String → Option IacStack) (defaultStack : Option IacStack)
    (provided : String) : Except String (IacStack × String) :=
  match (find provided).or defaultStack with
  | none => .error (noStackMsg provided)
  | some stack =>
    if stack.name ≠ "" ∧ stack.name ≠ provided then .error (noStackMsg provided)
    else .ok (stack, if stack.name ≠ "" then stack.name else provided)

/-- Truthiness of `parameter_override_from_cmdline.get(parameter_key, None)`:
a looked-up string is truthy when non-empty, a missing key gives `None`. -/
def truthyLookup (m : List (String × String)) (k : String) : Bool :=
  match m.lookup k with
  | some v => v ≠ ""
  | none => false

/-- `GuidedContext._get_parameter_value` (lines 373-389).  The Python guard is
`if parameter_override_from_cmdline and parameter_override_from_cmdline.get(parameter_key, None):`
(dict truthy, then looked-up value truthy); otherwise
`str(parameter_properties.get("Default", ""))`. -/
def getParameterValue (parameterKey : String) (props : ParamProps)
    (cmdline : Option (List (String × String))) : String :=
  match cmdline with
  | some overrides =>
    if overrides ≠ [] ∧ truthyLookup overrides parameterKey then
      (overrides.lookup parameterKey).getD ""
    else pyStr ((props.defaultVal).getD (.pstr ""))
  | none => pyStr ((props.defaultVal).getD (.pstr ""))

/-- The text of the parameter prompt (line 284 / 289). -/
def paramPromptText (key : String) : String :=
  "\t" ++ startBold ++ "Parameter " ++ key ++ endBold

/-- Python repr of a `{"Value": v, "Hidden": h}` dict.  It can only show up
as a click default on a duplicated template key, which a Python dict cannot
produce; it is kept for faithfulness to line 290. -/
def ovRepr (ov : ParamOverride) : String :=
  "\x7b\x27Value\x27: \x27" ++ ov.value ++ "\x27, \x27Hidden\x27: " ++
  (if ov.hidden then "True" else "False") ++ "\x7d"

/-- The loop body of `GuidedContext.prompt_parameters` (lines 279-298), with
`acc` the accumulated `_prompted_param_overrides` dict. -/
def promptParametersAux (cmdline : Option (List (String × String))) (a : Answers)
    (acc : List (String × ParamOverride)) :
    List (String × ParamProps) → List Event × List (String × ParamOverride)
  | [] => ([], acc)
  | (key, props) :: rest =>
    if props.noEcho then
      let ev := Event.prompt .parameters key (paramPromptText key) none true
      let acc₁ := upsert key ⟨a.param key, true⟩ acc
      let (evs, out) := promptParametersAux cmdline a acc₁ rest
      (ev :: evs, out)
    else
      let d := match acc.lookup key with
        | some ov => ovRepr ov
        | none => getParameterValue key props cmdline
      let ev := Event.prompt .parameters key (paramPromptText key) (some d) false
      let acc₁ := upsert key ⟨a.param key, false⟩ acc
      let (evs, out) := promptParametersAux cmdline a acc₁ rest
      (ev :: evs, out)

/-- `GuidedContext.prompt_parameters` (lines 275-299): the recorded prompt
events and the returned `_prompted_param_overrides` mapping. -/
def promptParameters (params : List (String × ParamProps))
    (cmdline : Option (List (String × String))) (a : Answers) :
    List Event × List (String × ParamOverride) :=
  promptParametersAux cmdline a [] params

/-- The click default of the image-repository prompt for `resourceId`
(lines 325-327):
`self.image_repositories.get(resource_id, "") if isinstance(self.image_repositories, dict) else "" or self.image_repository`.
Python parses the trailing `"" or self.image_repository` as the whole
else-branch, and `"" or x` evaluates to `x`. -/
def imageRepoDefault (imageRepositories : Option (List (String × String)))
    (imageRepository : Option String) (resourceId : String) : Option String :=
  match imageRepositories with
  | some d => some ((d.lookup resourceId).getD "")
  | none => imageRepository

/-- The text of the image-repository prompt (line 324). -/
def imageRepoPromptText (resourceId : String) : String :=
  "\t" ++ startBold ++ "Image Repository for " ++ resourceId ++ endBold

/-- The `GuidedDeployFailedError` message of lines 330-332. -/
def invalidEcrMsg (entered : String) : String :=
  "Invalid Image Repository ECR URI: " ++ entered

/-- The `GuidedDeployFailedError` message of line 341. -/
def noImagesMsg : String := "No images found to deploy, try running sam build"

/-- First loop of `prompt_image_repository` (lines 322-332): prompt each image
function resource for a repository URL, store it, and validate the ECR URL
shape; an invalid reply raises `GuidedDeployFailedError` at once. -/
def repoPromptLoopAux (isEcrUrl : String → Bool)
    (imageRepositories : Option (List (String × String)))
    (imageRepository : Option String) (a : Answers)
    (acc : List (String × String)) :
    List String → List Event × Except String (List (String × String))
  | [] => ([], .ok acc)
  | resourceId :: rest =>
    let ev := Event.prompt .imageRepo resourceId (imageRepoPromptText resourceId)
      (imageRepoDefault imageRepositories imageRepository resourceId) false
    let entered := a.imageRepo resourceId
    let acc₁ := upsert resourceId entered acc
    if isEcrUrl entered then
      let (evs, res) := repoPromptLoopAux isEcrUrl imageRepositories imageRepository a acc₁ rest
      (ev :: evs, res)
    else ([ev], .error (invalidEcrMsg entered))

/-- The first loop of `prompt_image_repository`, started on the empty dict. -/
def repoPromptLoop (isEcrUrl : String → Bool)
    (imageRepositories : Option (List (String × String)))
    (imageRepository : Option String) (a : Answers) (resources : List String) :
    List Event × Except String (List (String × String)) :=
  repoPromptLoopAux isEcrUrl imageRepositories imageRepository a [] resources

/-- Python f-string rendering of an optional string (`None` prints `None`). -/
def pyShowOptStr : Option String → String
  | some s => s
  | none => "None"

/-- The tag display line of line 343. -/
def tagLineText (image repoStr tag : String) : String :=
  "\t  " ++ image ++ " to be pushed to " ++ repoStr ++ ":" ++ tag

/-- Second loop of `prompt_image_repository` (lines 333-343): for each image
function, try `tag_translation`; `NonLocalImageException` is swallowed (no
line shown), `NoImageFoundException` raises `GuidedDeployFailedError`, and a
resolved tag prints the push line. -/
def tagDisplayLoop (tagTranslation : String → Except TagErr String)
    (repos : List (String × String)) :
    List (String × SamFn) → List Event × Except String Unit
  | [] => ([], .ok ())
  | (resourceId, fn) :: rest =>
    if fn.isImage then
      match tagTranslation fn.imageuri with
      | .error .nonLocal => tagDisplayLoop tagTranslation repos rest
      | .error .noImage => ([], .error noImagesMsg)
      | .ok tag =>
        let line := tagLineText fn.imageuri (pyShowOptStr (repos.lookup resourceId)) tag
        let (evs, res) := tagDisplayLoop tagTranslation repos rest
        (Event.echo .imageRepo line :: evs, res)
    else tagDisplayLoop tagTranslation repos rest

/-- `GuidedContext.prompt_image_repository` (lines 301-346). -/
def promptImageRepository (stack : IacStack)
    (imageRepositories : Option (List (String × String)))
    (imageRepository : Option String) (col : Collab) (a : Answers) :
    List Event × Except String (List (String × String)) :=
  if stack.hasImageAssets then
    let r := repoPromptLoop col.isEcrUrl imageRepositories imageRepository a
      stack.imageFunctionIds
    match r.2 with
    | .error e => (r.1, .error e)
    | .ok repos =>
      let t := tagDisplayLoop col.tagTranslation repos col.functions
      match t.2 with
      | .error e => (r.1 ++ t.1, .error e)
      | .ok _ => (r.1 ++ t.1 ++ [Event.echo .imageRepo ""], .ok repos)
  else ([], .ok [])

/-- The text of the authorization confirmation (line 210). -/
def authConfirmText (resource : String) : String :=
  "\t" ++ startBold ++ resource ++
  " may not have authorization defined, Is this okay?" ++ endBold

/-- The `GuidedDeployFailedError` message of line 214. -/
def securityMsg : String := "Security Constraints Not Satisfied!"

/-- `GuidedContext.prompt_authorization` (lines 204-214): confirm each
resource the authorization scanner reports as lacking authorization
(default `False`); a declined confirmation raises `GuidedDeployFailedError`. -/
def promptAuthorization (a : Answers) :
    List (String × Bool) → List Event × Except String Unit
  | [] => ([], .ok ())
  | (resource, authorizationRequired) :: rest =>
    if authorizationRequired then promptAuthorization a rest
    else
      let ev := Event.confirm .authorization resource (authConfirmText resource)
        (some false)
      if a.authOkay resource then
        let (evs, res) := promptAuthorization a rest
        (ev :: evs, res)
      else ([ev], .error securityMsg)

/-- Echo of line 233. -/
def signFoundText : String :=
  "\n\t#Found code signing configurations in your function definitions"

/-- The text of the sign-code confirmation (line 235). -/
def signConfirmText : String :=
  "\t" ++ startBold ++ "Do you want to sign your code?" ++ endBold

/-- Echo of line 247. -/
def signDetailsText : String :=
  "\t#Please provide signing profile details for the following functions & layers"

/-- Python repr of a list of strings (used by the f-string of line 266). -/
def pyListRepr (l : List String) : String :=
  "[" ++ String.intercalate ", " (l.map (fun s => "\x27" ++ s ++ "\x27")) ++ "]"

/-- Echo of line 254. -/
def functionHeaderText (functionName : String) : String :=
  "\t#Signing profile details for function \x27" ++ functionName ++ "\x27"

/-- Echo of lines 264-267. -/
def layerHeaderText (layerName : String) (functionsUseThisLayer : List String) : String :=
  "\t#Signing profile details for layer \x27" ++ layerName ++
  "\x27, which is used by functions " ++ pyListRepr functionsUseThisLayer

/-- Modelled from the spec: the prompt text of `prompt_profile_name`
(`code_signer_utils`, not under the sources). -/
def profileNamePromptText (target : String) : String :=
  "Signing profile name for " ++ target

/-- Modelled from the spec: the prompt text of `prompt_profile_owner`
(`code_signer_utils`, not under the sources). -/
def profileOwnerPromptText (target : String) : String :=
  "Signing profile owner for " ++ target

/-- One signing-target iteration: the shared body of the function loop
(lines 249-258) and the layer loop (lines 260-271) of
`prompt_code_signing_settings`.  `extract_profile_name_and_owner_from_existing`
and the two profile prompts are external collaborators; the final
`"" if not profile_owner else profile_owner` rewrite of the owner field is
kept literally. -/
def signingTargetStep (col : Collab) (a : Answers) (headerText : String)
    (target : String) (profiles : List (String × SigningEntry)) :
    List Event × List (String × SigningEntry) :=
  let extracted := col.extractProfile target profiles
  let pn := a.profileName target
  let po := a.profileOwner target
  let evs := [Event.echo .codeSigning headerText,
    Event.prompt .codeSigning target (profileNamePromptText target) extracted.1 false,
    Event.prompt .codeSigning target (profileOwnerPromptText target) extracted.2 false]
  let profiles₁ := upsert target ⟨pn, po⟩ profiles
  let profiles₂ := upsert target ⟨pn, if po = "" then "" else po⟩ profiles₁
  (evs, profiles₂)

/-- `GuidedContext.prompt_code_signing_settings` (lines 216-273): the
recorded events and the new `self.signing_profiles`.  With no signing target
reported by the scanner the step returns at once (lines 229-231); a declined
sign-code confirmation clears the profiles to `None` (lines 239-242);
otherwise `if not self.signing_profiles: self.signing_profiles = {}` and both
loops run. -/
def promptCodeSigningSettings (signingProfiles : Option (List (String × SigningEntry)))
    (col : Collab) (a : Answers) :
    List Event × Option (List (String × SigningEntry)) :=
  if col.signerFunctions = [] ∧ col.signerLayers = [] then
    ([], signingProfiles)
  else
    let evs₀ := [Event.echo .codeSigning signFoundText,
      Event.confirm .codeSigning "" signConfirmText (some true)]
    if a.signCode = false then (evs₀, none)
    else
      let profiles₀ := match signingProfiles with
        | none => []
        | some l => l
      let evs₁ := evs₀ ++ [Event.echo .codeSigning signDetailsText]
      let fstep := col.signerFunctions.foldl
        (fun (st : List Event × List (String × SigningEntry)) functionName =>
          let r := signingTargetStep col a (functionHeaderText functionName)
            functionName st.2
          (st.1 ++ r.1, r.2)) ([], profiles₀)
      let lstep := col.signerLayers.foldl
        (fun (st : List Event × List (String × SigningEntry)) layer =>
          let r := signingTargetStep col a (layerHeaderText layer.1 layer.2)
            layer.1 st.2
          (st.1 ++ r.1, r.2)) ([], fstep.2)
      (evs₁ ++ fstep.1 ++ lstep.1, some lstep.2)

/-- Echo of lines 131-135. -/
def headerText : String :=
  "\n\tSetting default arguments for \x27sam deploy\x27\n\t========================================="

/-- The text of the stack-name prompt (line 138). -/
def stackNamePromptText : String := "\t" ++ startBold ++ "Stack Name" ++ endBold

/-- The text of the region prompt (line 141). -/
def regionPromptText : String := "\t" ++ startBold ++ "AWS Region" ++ endBold

/-- Echo of line 151. -/
def changesetNoteText : String :=
  "\t#Shows you resources changes to be deployed and require a \x27Y\x27 to initiate deploy"

/-- The text of the confirm-changeset confirmation (line 153). -/
def changesetConfirmText : String :=
  "\t" ++ startBold ++ "Confirm changes before deploy" ++ endBold

/-- Echo of line 155. -/
def capabilitiesNoteText : String :=
  "\t#SAM needs permission to be able to create roles to connect to the resources in your template"

/-- The text of the capabilities confirmation (line 157). -/
def capabilitiesConfirmText : String :=
  "\t" ++ startBold ++ "Allow SAM CLI IAM role creation" ++ endBold

/-- The text of the capabilities prompt (line 162). -/
def capabilitiesPromptText : String := "\t" ++ startBold ++ "Capabilities" ++ endBold

/-- The text of the save-to-config confirmation (line 171). -/
def saveConfirmText : String :=
  "\t" ++ startBold ++ "Save arguments to configuration file" ++ endBold

/-- The text of the config-file prompt (line 175). -/
def configFilePromptText : String :=
  "\t" ++ startBold ++ "SAM configuration file" ++ endBold

/-- The text of the config-environment prompt (line 180). -/
def configEnvPromptText : String :=
  "\t" ++ startBold ++ "SAM configuration environment" ++ endBold

/-- Echo of line 186. -/
def bucketText (bucket : String) : String := "\n\t\tManaged S3 bucket: " ++ bucket

/-- Echo of line 187. -/
def bucketNoteText : String :=
  "\t\tA different default S3 bucket can be set in samconfig.toml"

/-- `GuidedContext.guided_prompts` (lines 116-202): the whole interactive
sequence.  On success it returns the updated session state (the field
assignments of lines 189-202); a raised `GuidedDeployFailedError` aborts the
sequence with the events recorded so far.  `c.capabilities` holds the value
wrapped by the source's one-element tuple `self.capabilities = (capabilities,)`,
so `self.capabilities[0]` is `c.capabilities`. -/
def guidedPrompts (c : Ctx) (col : Collab) (a : Answers) :
    List Event × Except String Ctx :=
  let defaultStackName := c.stackName
  let defaultRegion := pyOrS c.region (pyOrS col.sessionRegion "us-east-1")
  let defaultCapabilities := match c.capabilities with
    | some l => if l = [] then ["CAPABILITY_IAM"] else l
    | none => ["CAPABILITY_IAM"]
  let defaultConfigEnv := pyOrS c.configEnv DEFAULT_ENV
  let defaultConfigFile := pyOrS c.configFile DEFAULT_CONFIG_FILE_NAME
  let evs₀ := [Event.echo .header headerText,
    Event.prompt .stackName "" stackNamePromptText (some defaultStackName) false]
  let stackName := a.stackName
  match getIacStack col.findStackByName col.defaultStack stackName with
  | .error e => (evs₀, .error e)
  | .ok (stack, newName) =>
    let c₁ := { c with
      iacStack := some stack
      templateFile := some stack.originDir
      stackName := newName }
    let evs₁ := evs₀ ++ [Event.prompt .region "" regionPromptText (some defaultRegion) false]
    let region := a.region
    let p := promptParameters stack.overrideableParameters
      c₁.parameterOverridesFromCmdline a
    let i := promptImageRepository stack c₁.imageRepositories c₁.imageRepository col a
    match i.2 with
    | .error e => (evs₁ ++ p.1 ++ i.1, .error e)
    | .ok imageRepositories =>
      let evs₂ := evs₁ ++ p.1 ++ i.1 ++
        [Event.echo .changeset changesetNoteText,
         Event.confirm .changeset "" changesetConfirmText c₁.confirmChangeset,
         Event.echo .capabilities capabilitiesNoteText,
         Event.confirm .capabilities "" capabilitiesConfirmText (some true)]
      let confirmChangeset := a.confirmChangeset
      let capspair : List Event × Option (List String) :=
        if a.capabilitiesConfirm = false then
          ([Event.prompt .capabilities "" capabilitiesPromptText
             (some (pyListRepr defaultCapabilities)) false], some a.capabilities)
        else ([], none)
      let evs₃ := evs₂ ++ capspair.1
      let au := promptAuthorization a col.authResults
      match au.2 with
      | .error e => (evs₃ ++ au.1, .error e)
      | .ok _ =>
        let s := promptCodeSigningSettings c₁.signingProfiles col a
        let evs₄ := evs₃ ++ au.1 ++ s.1 ++
          [Event.confirm .saveConfig "" saveConfirmText (some true)]
        let saveToConfig := a.saveToConfig
        let cfg : List Event × Option String × Option String :=
          if saveToConfig then
            ([Event.prompt .saveConfig "" configFilePromptText (some defaultConfigFile) false,
              Event.prompt .saveConfig "" configEnvPromptText (some defaultConfigEnv) false],
             some a.configFile, some a.configEnv)
          else ([], none, none)
        let s3Bucket := col.manageStack
        let evs₅ := evs₄ ++ cfg.1 ++
          [Event.echo .bucket (bucketText s3Bucket), Event.echo .bucket bucketNoteText]
        let c₂ := { c₁ with
          guidedStackName := some stackName
          guidedS3Bucket := some s3Bucket
          guidedImageRepositories := some imageRepositories
          guidedS3Pfx := some stackName
          guidedRegion := some region
          guidedProfile := c₁.profile
          capabilitiesOut := some (match capspair.2 with
            | some l => if l = [] then defaultCapabilities else l
            | none => defaultCapabilities)
          parameterOverridesOut :=
            (if p.2 ≠ [] then some (.prompted p.2)
             else (c₁.parameterOverridesFromCmdline).map .fromCmdline)
          saveToConfig := saveToConfig
          configEnv := some (pyOrS cfg.2.1 defaultConfigEnv)
          configFile := some (pyOrS cfg.2.2 defaultConfigFile)
          confirmChangeset := some confirmChangeset
          signingProfiles := s.2 }
        (evs₅, .ok c₂)

/-- The argument record of the one `guided_config.save_config` call of
`GuidedContext.run` (lines 357-371). -/
structure SaveArgs where
  parameterOverrides : Option POVal
  configEnv : String
  configFile : String
  stackName : Option String
  s3Bucket : Option String
  s3Pfx : Option String
  imageRepositories : Option (List (String × String))
  region : Option String
  profile : Option String
  confirmChangeset : Option Bool
  capabilities : Option (List String)
  signingProfiles : Option (List (String × SigningEntry))
deriving Repr

/-- The session state handed to `save_config`, read off the context exactly as
lines 358-370 read the attributes. -/
def mkSaveArgs (c : Ctx) : SaveArgs :=
  { parameterOverrides := c.parameterOverridesOut
    configEnv := pyOrS c.configEnv DEFAULT_ENV
    configFile := pyOrS c.configFile DEFAULT_CONFIG_FILE_NAME
    stackName := c.guidedStackName
    s3Bucket := c.guidedS3Bucket
    s3Pfx := c.guidedS3Pfx
    imageRepositories := c.guidedImageRepositories
    region := c.guidedRegion
    profile := c.guidedProfile
    confirmChangeset := c.confirmChangeset
    capabilities := c.capabilitiesOut
    signingProfiles := c.signingProfiles }

/-- `GuidedContext.run` (lines 348-371): the guided prompts, then (after the
external, state-preserving `read_config_showcase`) the one `save_config` call
when the user opted in.  The `Option SaveArgs` records the config-writer
invocation: `none` means the writer was never invoked. -/
def run (c : Ctx) (col : Collab) (a : Answers) :
    List Event × Except String (Ctx × Option SaveArgs) :=
  match guidedPrompts c col a with
  | (evs, .error e) => (evs, .error e)
  | (evs, .ok c₂) =>
    (evs, .ok (c₂, if c₂.saveToConfig then some (mkSaveArgs c₂) else none))

/-- Looking up the just-assigned key finds the assigned value. -/
theorem upsert_lookup_self (k : String) (v : α) (l : List (String × α)) :
    (upsert k v l).lookup k = some v := by
  induction l with
  | nil => simp [upsert, List.lookup]
  | cons hd tl ih =>
    obtain ⟨k₀, v₀⟩ := hd
    by_cases h : k₀ = k
    · simp [upsert, h, List.lookup]
    · have hb : (k == k₀) = false := beq_eq_false_iff_ne.mpr (fun hh => h hh.symm)
      simp [upsert, h, List.lookup, hb, ih]

/-- Assigning one key leaves the lookup of any other key unchanged. -/
theorem upsert_lookup_ne (k q : String) (v : α) (l : List (String × α))
    (h : q ≠ k) : (upsert k v l).lookup q = l.lookup q := by
  have hb : (q == k) = false := beq_eq_false_iff_ne.mpr h
  induction l with
  | nil => simp [upsert, List.lookup, hb]
  | cons hd tl ih =>
    obtain ⟨k₀, v₀⟩ := hd
    by_cases hk : k₀ = k
    · subst hk
      simp [upsert, List.lookup, hb]
    · simp [upsert, hk, List.lookup, ih]

/-- A resolvable stack fixture for the concrete witnesses. -/
def stackW : IacStack :=
  { name := "sam-app"
    originDir := "template.yaml"
    overrideableParameters := []
    hasImageAssets := false
    imageFunctionIds := [] }

/-- A collaborator fixture for the concrete witnesses. -/
def colW : Collab :=
  { sessionRegion := none
    findStackByName := fun n => if n = "sam-app" then some stackW else none
    defaultStack := none
    functions := []
    authResults := []
    signerFunctions := []
    signerLayers := []
    extractProfile := fun _ _ => (none, none)
    isEcrUrl := fun _ => true
    tagTranslation := fun _ => .error .nonLocal
    manageStack := "aws-sam-cli-managed-default-samclisourcebucket-1" }

/-- An answers fixture for the concrete witnesses. -/
def aW : Answers :=
  { stackName := "sam-app"
    region := "us-east-1"
    param := fun _ => "v"
    imageRepo := fun _ => "123456789012.dkr.ecr.us-east-1.amazonaws.com/repo"
    confirmChangeset := true
    capabilitiesConfirm := true
    capabilities := []
    authOkay := fun _ => true
    signCode := true
    profileName := fun _ => "signer"
    profileOwner := fun _ => ""
    saveToConfig := true
    configFile := "samconfig.toml"
    configEnv := "default" }

/-- A session-state fixture for the concrete witnesses. -/
def ctxW : Ctx :=
  { stackName := "sam-app"
    imageRepository := none
    imageRepositories := none
    region := none
    profile := none
    confirmChangeset := some false
    capabilities := none
    parameterOverridesFromCmdline := none
    saveToConfig := true
    configEnv := none
    configFile := none
    guidedStackName := none
    guidedS3Bucket := none
    guidedImageRepositories := none
    guidedS3Pfx := none
    guidedRegion := none
    guidedProfile := none
    signingProfiles := none
    capabilitiesOut := none
    parameterOverridesOut := none
    iacStack := none
    templateFile := none }

/-- C7: when the signing-config scanner reports no function and no layer with
code-signing configuration, `prompt_code_signing_settings` returns at its
lines 229-231 guard: it records no terminal interaction and returns the
signing-profile state exactly as it was. -/
theorem code_signing_skipped_when_no_targets
    (signingProfiles : Option (List (String × SigningEntry))) (col : Collab)
    (a : Answers) (hf : col.signerFunctions = []) (hl : col.signerLayers = []) :
    promptCodeSigningSettings signingProfiles col a = ([], signingProfiles) := by
  unfold promptCodeSigningSettings
  simp [hf, hl]

/-- Witness for C7 at a concrete input: a pre-existing signing profile is
returned untouched and no event is recorded. -/
theorem code_signing_skipped_when_no_targets_witness :
    promptCodeSigningSettings (some [("HelloWorldFunction", ⟨"prof", "owner"⟩)]) colW aW =
      ([], some [("HelloWorldFunction", ⟨"prof", "owner"⟩)]) :=
  code_signing_skipped_when_no_targets
    (some [("HelloWorldFunction", ⟨"prof", "owner"⟩)]) colW aW rfl rfl

/-- A lookup that finds nothing, for the C8 counterexample. -/
def find8 : String → Option IacStack := fun _ => none

/-- A default stack with a falsy (empty / `None`) name. -/
def stack8 : IacStack :=
  { name := ""
    originDir := "dir"
    overrideableParameters := []
    hasImageAssets := false
    imageFunctionIds := [] }

/-- C8 counterexample: with no stack found by name and a default stack whose
name is falsy, resolving the entered name `"foo"` succeeds although the
resolved stack's name does not match the entered name — the claimed
"raises iff the resolved name does not match, and on success the stack's name
matches" is false at this input (the source's guard, line 105, only fires on
a *truthy* mismatching name). -/
theorem stack_resolution_mismatch_not_fatal :
    getIacStack find8 (some stack8) "foo" = .ok (stack8, "foo") ∧
      stack8.name ≠ "foo" := by
  constructor
  · rfl
  · decide

/-- C8 (amended): `_get_iac_stack` raises `GuidedDeployFailedError` exactly
when the lookup by the entered name (with fallback to the default stack)
yields no stack, or yields a stack whose name is non-empty and differs from
the entered name; on success the recorded session stack name equals the
entered name, and the resolved stack's own name, when non-empty, matches it. -/
theorem stack_resolution_amended (find : String → Option IacStack)
    (defaultStack : Option IacStack) (provided : String) :
    ((∃ e, getIacStack find defaultStack provided = .error e) ↔
      ((find provided).or defaultStack = none ∨
        ∃ st, (find provided).or defaultStack = some st ∧
          st.name ≠ "" ∧ st.name ≠ provided)) ∧
    (∀ st s, getIacStack find defaultStack provided = .ok (st, s) →
      s = provided ∧ (st.name = "" ∨ st.name = provided)) := by
  unfold getIacStack
  cases h : (find provided).or defaultStack with
  | none =>
    constructor
    · simp
    · intro st s hok
      cases hok
  | some st =>
    dsimp only
    by_cases hn : st.name ≠ "" ∧ st.name ≠ provided
    · rw [if_pos hn]
      constructor
      · constructor
        · intro _
          exact Or.inr ⟨st, rfl, hn⟩
        · intro _
          exact ⟨noStackMsg provided, rfl⟩
      · intro st' s' hok
        cases hok
    · rw [if_neg hn]
      push_neg at hn
      constructor
      · constructor
        · rintro ⟨e, he⟩
          cases he
        · rintro (hc | ⟨st', hst', hne, hnp⟩)
          · cases hc
          · injection hst' with hst'
            subst hst'
            exact absurd (hn hne) hnp
      · rintro st' s' hok
        injection hok with hok
        injection hok with h1 h2
        subst h1
        constructor
        · by_cases he : st.name = ""
          · rw [← h2, if_neg (by simpa using he)]
          · rw [← h2, if_pos he]
            exact hn he
        · by_cases he : st.name = ""
          · exact Or.inl he
          · exact Or.inr (hn he)

/-- Witness for C8 (amended) at a concrete input: resolving the name
`"sam-app"` against `colW` succeeds, the session name equals the request and
the stack's own name matches. -/
theorem stack_resolution_amended_witness :
    ("sam-app" : String) = "sam-app" ∧
      (stackW.name = "" ∨ stackW.name = "sam-app") :=
  (stack_resolution_amended colW.findStackByName colW.defaultStack "sam-app").2
    stackW "sam-app" (by rfl)

/-- On success, `guided_prompts` records the values of lines 189-202: the
saved-to-config flag is the user's reply, and both the collected stack name
and the collected artifact prefix are the stack-name prompt's reply. -/
theorem guidedPrompts_ok_fields (c : Ctx) (col : Collab) (a : Answers) (c₂ : Ctx)
    (h : (guidedPrompts c col a).2 = .ok c₂) :
    c₂.saveToConfig = a.saveToConfig ∧
      c₂.guidedS3Pfx = some a.stackName ∧
      c₂.guidedStackName = some a.stackName := by
  unfold guidedPrompts at h
  dsimp only at h
  cases hg : getIacStack col.findStackByName col.defaultStack a.stackName with
  | error e =>
    rw [hg] at h
    simp at h
  | ok pr =>
    obtain ⟨stack, newName⟩ := pr
    rw [hg] at h
    dsimp only at h
    cases hi : (promptImageRepository stack c.imageRepositories c.imageRepository col a).2 with
    | error e =>
      rw [hi] at h
      simp at h
    | ok repos =>
      rw [hi] at h
      dsimp only at h
      cases ha : (promptAuthorization a col.authResults).2 with
      | error e =>
        rw [ha] at h
        simp at h
      | ok u =>
        rw [ha] at h
        simp only [Except.ok.injEq] at h
        subst h
        exact ⟨rfl, rfl, rfl⟩

/-- The payload of an `ok` result, with a fallback for `error` (used by the
concrete witnesses to name computed results). -/
def okOr (r : Except ε α) (d : α) : α :=
  match r with
  | .ok v => v
  | .error _ => d

/-- C10: whenever the guided prompt sequence completes successfully, the
collected artifact prefix (`self.guided_s3_prefix`, line 192) equals the
collected stack name (`self.guided_stack_name`, line 189): both are the
stack-name prompt's reply, and the prefix is never independently prompted. -/
theorem collected_s3_pfx_equals_stack_name (c : Ctx) (col : Collab) (a : Answers)
    (c₂ : Ctx) (h : (guidedPrompts c col a).2 = .ok c₂) :
    c₂.guidedS3Pfx = c₂.guidedStackName ∧ c₂.guidedS3Pfx = some a.stackName := by
  obtain ⟨-, h2, h3⟩ := guidedPrompts_ok_fields c col a c₂ h
  exact ⟨h2.trans h3.symm, h2⟩

/-- Witness for C10 at a concrete successful run. -/
theorem collected_s3_pfx_equals_stack_name_witness :
    (okOr (guidedPrompts ctxW colW aW).2 ctxW).guidedS3Pfx =
        (okOr (guidedPrompts ctxW colW aW).2 ctxW).guidedStackName ∧
      (okOr (guidedPrompts ctxW colW aW).2 ctxW).guidedS3Pfx = some "sam-app" :=
  collected_s3_pfx_equals_stack_name ctxW colW aW
    (okOr (guidedPrompts ctxW colW aW).2 ctxW) (by rfl)

/-- C9: `run` forwards a `GuidedDeployFailedError` of the prompt sequence
unchanged — the config writer is never invoked (no partial persistence) — and
on success it invokes `save_config` with the collected session state exactly
when the save-to-config reply was positive. -/
theorem run_saves_only_when_opted (c : Ctx) (col : Collab) (a : Answers) :
    (∀ e, (guidedPrompts c col a).2 = .error e →
      run c col a = ((guidedPrompts c col a).1, .error e)) ∧
    (∀ c₂, (guidedPrompts c col a).2 = .ok c₂ →
      run c col a = ((guidedPrompts c col a).1,
        .ok (c₂, if c₂.saveToConfig then some (mkSaveArgs c₂) else none)) ∧
      c₂.saveToConfig = a.saveToConfig) := by
  rcases hG : guidedPrompts c col a with ⟨evs, r⟩
  constructor
  · intro e he
    simp only at he
    subst he
    unfold run
    rw [hG]
  · intro c₂ hc
    simp only at hc
    subst hc
    constructor
    · unfold run
      rw [hG]
    · exact (guidedPrompts_ok_fields c col a c₂ (by rw [hG])).1

/-- A replies fixture whose stack name resolves to nothing. -/
def aW9 : Answers := { aW with stackName := "missing" }

/-- Witness for C9 at a concrete failing run: the error propagates and no
`save_config` invocation is recorded. -/
theorem run_saves_only_when_opted_witness :
    run ctxW colW aW9 =
      ((guidedPrompts ctxW colW aW9).1, .error (noStackMsg "missing")) :=
  (run_saves_only_when_opted ctxW colW aW9).1 (noStackMsg "missing") (by rfl)

/-- The one prompt event `prompt_parameters` issues for a template parameter,
assuming its key was not previously prompted (a Python dict iteration never
repeats a key). -/
def paramEventFor (cmdline : Option (List (String × String)))
    (kp : String × ParamProps) : Event :=
  if kp.2.noEcho then Event.prompt .parameters kp.1 (paramPromptText kp.1) none true
  else Event.prompt .parameters kp.1 (paramPromptText kp.1)
    (some (getParameterValue kp.1 kp.2 cmdline)) false

/-- The parameter-prompt trace is one event per template parameter when the
accumulated dict holds none of the (distinct) keys yet. -/
theorem promptParametersAux_trace (cmdline : Option (List (String × String)))
    (a : Answers) (acc : List (String × ParamOverride))
    (params : List (String × ParamProps))
    (hacc : ∀ kp ∈ params, acc.lookup kp.1 = none)
    (hnd : (params.map Prod.fst).Nodup) :
    (promptParametersAux cmdline a acc params).1 =
      params.map (paramEventFor cmdline) := by
  induction params generalizing acc with
  | nil => rfl
  | cons hd tl ih =>
    obtain ⟨key, props⟩ := hd
    have hk : acc.lookup key = none := hacc (key, props) (by simp)
    have hkey : key ∉ tl.map Prod.fst := (List.nodup_cons.mp hnd).1
    have hnd₁ : (tl.map Prod.fst).Nodup := (List.nodup_cons.mp hnd).2
    have hacc₁ : ∀ (v : ParamOverride) (kp : String × ParamProps), kp ∈ tl →
        (upsert key v acc).lookup kp.1 = none := by
      intro v kp hkp
      have hne : kp.1 ≠ key := by
        intro hcontra
        exact hkey (hcontra ▸ List.mem_map_of_mem Prod.fst hkp)
      rw [upsert_lookup_ne key kp.1 v acc hne]
      exact hacc kp (List.mem_cons_of_mem _ hkp)
    cases hne : props.noEcho with
    | true =>
      simp only [promptParametersAux, hne, List.map_cons, paramEventFor]
      rw [ih _ (hacc₁ ⟨a.param key, true⟩) hnd₁]
      simp
    | false =>
      simp only [promptParametersAux, hne, hk, List.map_cons, paramEventFor]
      rw [ih _ (hacc₁ ⟨a.param key, false⟩) hnd₁]
      simp

/-- A key that is not among the remaining template parameters keeps its
accumulated override entry. -/
theorem promptParametersAux_lookup_frozen (cmdline : Option (List (String × String)))
    (a : Answers) (acc : List (String × ParamOverride))
    (params : List (String × ParamProps)) (key : String)
    (hnot : key ∉ params.map Prod.fst) :
    ((promptParametersAux cmdline a acc params).2).lookup key = acc.lookup key := by
  induction params generalizing acc with
  | nil => rfl
  | cons hd tl ih =>
    obtain ⟨k₀, p₀⟩ := hd
    have hkne : key ≠ k₀ := by
      intro hcontra
      exact hnot (by simp [hcontra])
    have hnot₁ : key ∉ tl.map Prod.fst := by
      intro hcontra
      exact hnot (List.mem_cons_of_mem _ hcontra)
    simp only [promptParametersAux]
    cases hne : p₀.noEcho with
    | true =>
      rw [if_pos rfl]
      show ((promptParametersAux cmdline a (upsert k₀ ⟨a.param k₀, true⟩ acc) tl).2).lookup key = _
      rw [ih _ hnot₁, upsert_lookup_ne k₀ key _ acc hkne]
    | false =>
      rw [if_neg (by simp)]
      show ((promptParametersAux cmdline a (upsert k₀ ⟨a.param k₀, false⟩ acc) tl).2).lookup key = _
      rw [ih _ hnot₁, upsert_lookup_ne k₀ key _ acc hkne]

/-- The override entry recorded for a template parameter: its reply and its
`NoEcho` flag as the `Hidden` flag. -/
theorem promptParametersAux_result_lookup (cmdline : Option (List (String × String)))
    (a : Answers) (acc : List (String × ParamOverride))
    (params : List (String × ParamProps)) (key : String) (props : ParamProps)
    (hmem : (key, props) ∈ params)
    (hnd : (params.map Prod.fst).Nodup) :
    ((promptParametersAux cmdline a acc params).2).lookup key =
      some ⟨a.param key, props.noEcho⟩ := by
  induction params generalizing acc with
  | nil => cases hmem
  | cons hd tl ih =>
    obtain ⟨k₀, p₀⟩ := hd
    have hkey : k₀ ∉ tl.map Prod.fst := (List.nodup_cons.mp hnd).1
    have hnd₁ : (tl.map Prod.fst).Nodup := (List.nodup_cons.mp hnd).2
    by_cases hk : k₀ = key
    · subst hk
      have hpp : props = p₀ := by
        rcases List.mem_cons.mp hmem with heq | htl
        · exact congrArg Prod.snd heq
        · exact absurd (List.mem_map_of_mem Prod.fst htl) hkey
      subst hpp
      simp only [promptParametersAux]
      cases hne : props.noEcho with
      | true =>
        rw [if_pos rfl]
        show ((promptParametersAux cmdline a
          (upsert k₀ ⟨a.param k₀, true⟩ acc) tl).2).lookup k₀ = _
        rw [promptParametersAux_lookup_frozen cmdline a _ tl k₀ hkey,
          upsert_lookup_self]
      | false =>
        rw [if_neg (by simp)]
        show ((promptParametersAux cmdline a
          (upsert k₀ ⟨a.param k₀, false⟩ acc) tl).2).lookup k₀ = _
        rw [promptParametersAux_lookup_frozen cmdline a _ tl k₀ hkey,
          upsert_lookup_self]
    · have htl : (key, props) ∈ tl := by
        rcases List.mem_cons.mp hmem with heq | htl
        · exact absurd (congrArg Prod.fst heq).symm (by simpa using hk)
        · exact htl
      simp only [promptParametersAux]
      cases hne : p₀.noEcho with
      | true =>
        rw [if_pos rfl]
        show ((promptParametersAux cmdline a
          (upsert k₀ ⟨a.param k₀, true⟩ acc) tl).2).lookup key = _
        exact ih _ htl hnd₁
      | false =>
        rw [if_neg (by simp)]
        show ((promptParametersAux cmdline a
          (upsert k₀ ⟨a.param k₀, false⟩ acc) tl).2).lookup key = _
        exact ih _ htl hnd₁

/-- In an association list with distinct keys, filtering for one present key
yields exactly its entry. -/
theorem filter_key_of_nodup {β : Type} (params : List (String × β)) (key : String)
    (props : β) (hnd : (params.map Prod.fst).Nodup) (hmem : (key, props) ∈ params) :
    params.filter (fun kp => kp.1 == key) = [(key, props)] := by
  induction params with
  | nil => cases hmem
  | cons hd tl ih =>
    obtain ⟨k₀, p₀⟩ := hd
    have hkey : k₀ ∉ tl.map Prod.fst := (List.nodup_cons.mp hnd).1
    have hnd₁ : (tl.map Prod.fst).Nodup := (List.nodup_cons.mp hnd).2
    by_cases hk : k₀ = key
    · subst hk
      have hpp : props = p₀ := by
        rcases List.mem_cons.mp hmem with heq | htl
        · exact congrArg Prod.snd heq
        · exact absurd (List.mem_map_of_mem Prod.fst htl) hkey
      subst hpp
      have htlnil : tl.filter (fun kp => kp.1 == k₀) = [] := by
        rw [List.filter_eq_nil_iff]
        intro kp hkp
        simp only [beq_iff_eq]
        intro hcontra
        exact hkey (hcontra ▸ List.mem_map_of_mem Prod.fst hkp)
      simp [List.filter_cons, htlnil]
    · have htl : (key, props) ∈ tl := by
        rcases List.mem_cons.mp hmem with heq | htl
        · exact absurd (congrArg Prod.fst heq).symm (by simpa using hk)
        · exact htl
      have hhd : ¬((k₀, p₀).1 == key) = true := by simpa using hk
      simp only [List.filter_cons, if_neg hhd]
      exact ih hnd₁ htl

/-- The tag of the parameter prompt event is the parameter key. -/
theorem paramEventFor_tag (cmdline : Option (List (String × String)))
    (kp : String × ParamProps) : Event.tag (paramEventFor cmdline kp) = kp.1 := by
  cases h : kp.2.noEcho <;> simp [paramEventFor, h, Event.tag]

/-- C2: every `NoEcho` template parameter is prompted exactly once, with no
pre-filled default (`default=None`) and with `hide_input=True` (lines
282-285), and its collected override entry carries `Hidden = True` with the
entered value (line 286). -/
theorem sensitive_parameters_masked (params : List (String × ParamProps))
    (cmdline : Option (List (String × String))) (a : Answers) (key : String)
    (props : ParamProps) (hnd : (params.map Prod.fst).Nodup)
    (hmem : (key, props) ∈ params) (hne : props.noEcho = true) :
    (promptParameters params cmdline a).1.filter (fun e => Event.tag e == key) =
      [Event.prompt .parameters key (paramPromptText key) none true] ∧
    ((promptParameters params cmdline a).2).lookup key =
      some ⟨a.param key, true⟩ := by
  constructor
  · rw [promptParameters,
      promptParametersAux_trace cmdline a [] params (by intro kp _; rfl) hnd,
      List.filter_map]
    have hpred : ((fun e => Event.tag e == key) ∘ paramEventFor cmdline) =
        fun kp => kp.1 == key := by
      funext kp
      simp [Function.comp, paramEventFor_tag]
    rw [hpred, filter_key_of_nodup params key props hnd hmem]
    simp [paramEventFor, hne]
  · rw [promptParameters]
    rw [promptParametersAux_result_lookup cmdline a [] params key props hmem hnd, hne]

/-- Concrete parameters: one sensitive, one plain. -/
def paramsW : List (String × ParamProps) :=
  [("Password", ⟨true, none⟩), ("Instance", ⟨false, some (.pstr "t2.micro")⟩)]

/-- Witness for C2 at a concrete input. -/
theorem sensitive_parameters_masked_witness :
    (promptParameters paramsW (some [("Instance", "t3.large")]) aW).1.filter
        (fun e => Event.tag e == "Password") =
      [Event.prompt .parameters "Password" (paramPromptText "Password") none true] ∧
    ((promptParameters paramsW (some [("Instance", "t3.large")]) aW).2).lookup
        "Password" = some ⟨"v", true⟩ :=
  sensitive_parameters_masked paramsW (some [("Instance", "t3.large")]) aW
    "Password" ⟨true, none⟩ (by decide) (by decide) rfl

/-- `_get_parameter_value`, stated by its observable precedence: the
command-line override wins exactly when present *and non-empty* (Python
truthiness), else the stringified template default, else `""`. -/
theorem getParameterValue_spec (key : String) (props : ParamProps)
    (cmdline : Option (List (String × String))) :
    getParameterValue key props cmdline =
      match (cmdline.getD []).lookup key with
      | some v => if v = "" then pyStr (props.defaultVal.getD (.pstr "")) else v
      | none => pyStr (props.defaultVal.getD (.pstr "")) := by
  cases cmdline with
  | none => rfl
  | some m =>
    simp only [getParameterValue, Option.getD]
    cases hm : m.lookup key with
    | none =>
      have : truthyLookup m key = false := by simp [truthyLookup, hm]
      simp [truthyLookup, hm]
    | some v =>
      have hmne : m ≠ [] := by
        intro hcontra
        rw [hcontra] at hm
        cases hm
      by_cases hv : v = ""
      · simp [truthyLookup, hm, hv]
      · simp [truthyLookup, hm, hv, hmne]

/-- C3 counterexample: the parameter `KeyName` has the command-line override
value `""` — present in the override mapping — yet the prompt's default is
the template default `tmpl-default`, not the override: `_get_parameter_value`
tests Python truthiness, not presence. -/
theorem empty_cmdline_override_ignored :
    List.lookup "KeyName" [("KeyName", "")] = some "" ∧
    (promptParameters [("KeyName", ⟨false, some (.pstr "tmpl-default")⟩)]
        (some [("KeyName", "")]) aW).1 =
      [Event.prompt .parameters "KeyName" (paramPromptText "KeyName")
        (some "tmpl-default") false] := by
  constructor
  · rfl
  · rfl

/-- C3 (amended): for a non-sensitive overridable parameter the prompt's
default follows the precedence: the command-line/override value when present
and non-empty, else the template's declared default stringified, else the
empty string. -/
theorem nonsensitive_default_precedence (params : List (String × ParamProps))
    (cmdline : Option (List (String × String))) (a : Answers) (key : String)
    (props : ParamProps) (hnd : (params.map Prod.fst).Nodup)
    (hmem : (key, props) ∈ params) (hne : props.noEcho = false) :
    (promptParameters params cmdline a).1.filter (fun e => Event.tag e == key) =
      [Event.prompt .parameters key (paramPromptText key)
        (some (match (cmdline.getD []).lookup key with
          | some v => if v = "" then pyStr (props.defaultVal.getD (.pstr "")) else v
          | none => pyStr (props.defaultVal.getD (.pstr "")))) false] := by
  rw [promptParameters,
    promptParametersAux_trace cmdline a [] params (by intro kp _; rfl) hnd,
    List.filter_map]
  have hpred : ((fun e => Event.tag e == key) ∘ paramEventFor cmdline) =
      fun kp => kp.1 == key := by
    funext kp
    simp [Function.comp, paramEventFor_tag]
  rw [hpred, filter_key_of_nodup params key props hnd hmem]
  simp [paramEventFor, hne, getParameterValue_spec]

/-- Witness for C3 (amended) at a concrete input: a non-empty override wins
over the template default. -/
theorem nonsensitive_default_precedence_witness :
    (promptParameters paramsW (some [("Instance", "t3.large")]) aW).1.filter
        (fun e => Event.tag e == "Instance") =
      [Event.prompt .parameters "Instance" (paramPromptText "Instance")
        (some (match (List.lookup "Instance"
            ((some [("Instance", "t3.large")]).getD [])) with
          | some v => if v = "" then
              pyStr ((some (PyVal.pstr "t2.micro")).getD (.pstr "")) else v
          | none => pyStr ((some (PyVal.pstr "t2.micro")).getD (.pstr ""))))
        false] :=
  nonsensitive_default_precedence paramsW (some [("Instance", "t3.large")]) aW
    "Instance" ⟨false, some (.pstr "t2.micro")⟩ (by decide) (by decide) rfl

/-- The prompt event the image-repository loop issues for one resource. -/
def repoEventFor (imageRepositories : Option (List (String × String)))
    (imageRepository : Option String) (resourceId : String) : Event :=
  Event.prompt .imageRepo resourceId (imageRepoPromptText resourceId)
    (imageRepoDefault imageRepositories imageRepository resourceId) false

/-- C1 (the code as written, at the failing input): with a per-function
mapping dict present — holding no entry for `Func1`/`Func2` — and a shared
repository configured, *both* image-repository prompts pre-fill the empty
string, not the shared value; only when the mapping is absent (`None`, not a
dict) does the shared value pre-fill.  The written `"" or
self.image_repository` is the whole else-branch of the conditional
expression, so the shared fallback is unreachable whenever
`image_repositories` is a dict. -/
theorem shared_image_repository_default_dropped :
    imageRepoDefault (some [("Other", "o-uri")]) (some "shared-uri") "Func1" =
        some "" ∧
    imageRepoDefault (some [("Other", "o-uri")]) (some "shared-uri") "Func2" =
        some "" ∧
    imageRepoDefault none (some "shared-uri") "Func1" = some "shared-uri" ∧
    (repoPromptLoop (fun _ => true) (some [("Other", "o-uri")])
        (some "shared-uri") aW ["Func1", "Func2"]).1 =
      [Event.prompt .imageRepo "Func1" (imageRepoPromptText "Func1") (some "") false,
       Event.prompt .imageRepo "Func2" (imageRepoPromptText "Func2") (some "") false] := by
  refine ⟨rfl, rfl, rfl, rfl⟩

/-- When some reply fails the ECR-URL check, the repository loop prompts each
resource exactly once up to and including the first failing one, then raises
the invalid-URI `GuidedDeployFailedError` for a failing reply. -/
theorem repoPromptLoopAux_fail (isEcrUrl : String → Bool)
    (imageRepositories : Option (List (String × String)))
    (imageRepository : Option String) (a : Answers)
    (acc : List (String × String)) (resources : List String)
    (hex : ∃ x ∈ resources, isEcrUrl (a.imageRepo x) = false) :
    (repoPromptLoopAux isEcrUrl imageRepositories imageRepository a acc resources).1 =
      (resources.take
        (resources.findIdx (fun x => !(isEcrUrl (a.imageRepo x))) + 1)).map
        (repoEventFor imageRepositories imageRepository) ∧
    ∃ x ∈ resources, isEcrUrl (a.imageRepo x) = false ∧
      (repoPromptLoopAux isEcrUrl imageRepositories imageRepository a acc resources).2 =
        .error (invalidEcrMsg (a.imageRepo x)) := by
  induction resources generalizing acc with
  | nil =>
    obtain ⟨x, hx, -⟩ := hex
    cases hx
  | cons r rest ih =>
    by_cases hr : isEcrUrl (a.imageRepo r) = true
    · have hex₁ : ∃ x ∈ rest, isEcrUrl (a.imageRepo x) = false := by
        obtain ⟨x, hx, hxbad⟩ := hex
        rcases List.mem_cons.mp hx with rfl | hxtl
        · rw [hr] at hxbad
          cases hxbad
        · exact ⟨x, hxtl, hxbad⟩
      obtain ⟨htr, x, hx, hxbad, herr⟩ := ih (upsert r (a.imageRepo r) acc) hex₁
      have hfind : (r :: rest).findIdx (fun x => !(isEcrUrl (a.imageRepo x))) =
          rest.findIdx (fun x => !(isEcrUrl (a.imageRepo x))) + 1 := by
        rw [List.findIdx_cons]
        simp [hr]
      constructor
      · simp only [repoPromptLoopAux, if_pos hr, hfind, List.take_succ_cons,
          List.map_cons]
        rw [htr]
        rfl
      · refine ⟨x, List.mem_cons_of_mem _ hx, hxbad, ?_⟩
        simp only [repoPromptLoopAux, if_pos hr]
        exact herr
    · have hrb : isEcrUrl (a.imageRepo r) = false := by
        cases h : isEcrUrl (a.imageRepo r)
        · rfl
        · exact absurd h hr
      have hfind : (r :: rest).findIdx (fun x => !(isEcrUrl (a.imageRepo x))) = 0 := by
        rw [List.findIdx_cons]
        simp [hrb]
      constructor
      · simp only [repoPromptLoopAux, if_neg hr, hfind, List.take_succ_cons,
          List.take_zero, List.map_cons, List.map_nil]
        rfl
      · exact ⟨r, List.mem_cons_self r rest, hrb, by
          simp only [repoPromptLoopAux, if_neg hr]⟩

/-- C6: if any image function's entered repository URL fails the
`is_ecr_url` check, `prompt_image_repository` raises the
`GuidedDeployFailedError` with the invalid-URI message at the first failing
resource, and its whole trace is exactly one prompt per resource up to and
including that first failing one — no retry re-prompting, and nothing (no tag
resolution, no further prompt) after the failure. -/
theorem invalid_repo_uri_fatal_no_retry (stack : IacStack)
    (imageRepositories : Option (List (String × String)))
    (imageRepository : Option String) (col : Collab) (a : Answers) (r : String)
    (hImg : stack.hasImageAssets = true)
    (hr : r ∈ stack.imageFunctionIds)
    (hbad : col.isEcrUrl (a.imageRepo r) = false) :
    (∃ x ∈ stack.imageFunctionIds, col.isEcrUrl (a.imageRepo x) = false ∧
      (promptImageRepository stack imageRepositories imageRepository col a).2 =
        .error (invalidEcrMsg (a.imageRepo x))) ∧
    (promptImageRepository stack imageRepositories imageRepository col a).1 =
      (stack.imageFunctionIds.take
        (stack.imageFunctionIds.findIdx (fun x => !(col.isEcrUrl (a.imageRepo x))) + 1)).map
        (repoEventFor imageRepositories imageRepository) := by
  obtain ⟨htr, x, hx, hxbad, herr⟩ := repoPromptLoopAux_fail col.isEcrUrl
    imageRepositories imageRepository a [] stack.imageFunctionIds ⟨r, hr, hbad⟩
  constructor
  · refine ⟨x, hx, hxbad, ?_⟩
    unfold promptImageRepository
    rw [if_pos hImg]
    dsimp only
    rw [show repoPromptLoop col.isEcrUrl imageRepositories imageRepository a
        stack.imageFunctionIds =
      repoPromptLoopAux col.isEcrUrl imageRepositories imageRepository a []
        stack.imageFunctionIds from rfl]
    rw [herr]
  · unfold promptImageRepository
    rw [if_pos hImg]
    dsimp only
    rw [show repoPromptLoop col.isEcrUrl imageRepositories imageRepository a
        stack.imageFunctionIds =
      repoPromptLoopAux col.isEcrUrl imageRepositories imageRepository a []
        stack.imageFunctionIds from rfl]
    rw [herr]
    exact htr

/-- A stack fixture with two image functions. -/
def stackC6 : IacStack :=
  { name := "sam-app"
    originDir := "template.yaml"
    overrideableParameters := []
    hasImageAssets := true
    imageFunctionIds := ["F1", "F2"] }

/-- A collaborator fixture whose ECR-URL check rejects everything. -/
def colC6 : Collab := { colW with isEcrUrl := fun _ => false }

/-- Witness for C6 at a concrete input: the first resource's reply fails the
check, the loop stops after the single prompt for it. -/
theorem invalid_repo_uri_fatal_no_retry_witness :
    (∃ x ∈ stackC6.imageFunctionIds, colC6.isEcrUrl (aW.imageRepo x) = false ∧
      (promptImageRepository stackC6 none none colC6 aW).2 =
        .error (invalidEcrMsg (aW.imageRepo x))) ∧
    (promptImageRepository stackC6 none none colC6 aW).1 =
      (stackC6.imageFunctionIds.take
        (stackC6.imageFunctionIds.findIdx
          (fun x => !(colC6.isEcrUrl (aW.imageRepo x))) + 1)).map
        (repoEventFor none none) :=
  invalid_repo_uri_fatal_no_retry stackC6 none none colC6 aW "F1" rfl
    (by decide) rfl

/-- Whether `tag_translation` succeeded. -/
def isOkTag : Except TagErr String → Bool
  | .ok _ => true
  | .error _ => false

/-- The resolved tag of a successful `tag_translation` (and `""` otherwise). -/
def exTag : Except TagErr String → String
  | .ok t => t
  | .error _ => ""

/-- Any image function whose tag translation fails with
`NoImageFoundException` makes the display loop raise the build-first
`GuidedDeployFailedError`. -/
theorem tagDisplayLoop_noImage (tt : String → Except TagErr String)
    (repos : List (String × String)) (fns : List (String × SamFn))
    (hex : ∃ p ∈ fns, p.2.isImage = true ∧ tt p.2.imageuri = .error .noImage) :
    (tagDisplayLoop tt repos fns).2 = .error noImagesMsg := by
  induction fns with
  | nil =>
    obtain ⟨p, hp, -⟩ := hex
    cases hp
  | cons hd rest ih =>
    obtain ⟨rid, fn⟩ := hd
    by_cases hi : fn.isImage = true
    · cases htt : tt fn.imageuri with
      | error te =>
        cases te with
        | nonLocal =>
          have hex₁ : ∃ p ∈ rest, p.2.isImage = true ∧ tt p.2.imageuri = .error .noImage := by
            obtain ⟨p, hp, hpi, hpt⟩ := hex
            rcases List.mem_cons.mp hp with rfl | hptl
            · rw [htt] at hpt
              simp at hpt
            · exact ⟨p, hptl, hpi, hpt⟩
          simp only [tagDisplayLoop]
          rw [if_pos hi, htt]
          exact ih hex₁
        | noImage =>
          simp only [tagDisplayLoop]
          rw [if_pos hi, htt]
      | ok tag =>
        have hex₁ : ∃ p ∈ rest, p.2.isImage = true ∧ tt p.2.imageuri = .error .noImage := by
          obtain ⟨p, hp, hpi, hpt⟩ := hex
          rcases List.mem_cons.mp hp with rfl | hptl
          · rw [htt] at hpt
            simp at hpt
          · exact ⟨p, hptl, hpi, hpt⟩
        simp only [tagDisplayLoop]
        rw [if_pos hi, htt]
        dsimp only
        exact ih hex₁
    · have hex₁ : ∃ p ∈ rest, p.2.isImage = true ∧ tt p.2.imageuri = .error .noImage := by
        obtain ⟨p, hp, hpi, hpt⟩ := hex
        rcases List.mem_cons.mp hp with rfl | hptl
        · exact absurd hpi hi
        · exact ⟨p, hptl, hpi, hpt⟩
      simp only [tagDisplayLoop]
      rw [if_neg hi]
      exact ih hex₁

/-- With no `NoImageFoundException` among the image functions, the display
loop succeeds and shows exactly one push line per image function whose tag
resolved — entries failing with `NonLocalImageException` are silently
skipped. -/
theorem tagDisplayLoop_ok (tt : String → Except TagErr String)
    (repos : List (String × String)) (fns : List (String × SamFn))
    (hall : ∀ p ∈ fns, p.2.isImage = true → tt p.2.imageuri ≠ .error .noImage) :
    tagDisplayLoop tt repos fns =
      ((fns.filter (fun p => p.2.isImage && isOkTag (tt p.2.imageuri))).map
        (fun p => Event.echo .imageRepo (tagLineText p.2.imageuri
          (pyShowOptStr (repos.lookup p.1)) (exTag (tt p.2.imageuri)))), .ok ()) := by
  induction fns with
  | nil => rfl
  | cons hd rest ih =>
    obtain ⟨rid, fn⟩ := hd
    have hall₁ : ∀ p ∈ rest, p.2.isImage = true → tt p.2.imageuri ≠ .error .noImage :=
      fun p hp => hall p (List.mem_cons_of_mem _ hp)
    by_cases hi : fn.isImage = true
    · cases htt : tt fn.imageuri with
      | error te =>
        cases te with
        | nonLocal =>
          simp only [tagDisplayLoop]
          rw [if_pos hi, htt, ih hall₁]
          simp [List.filter_cons, hi, htt, isOkTag]
        | noImage =>
          exact absurd htt (hall (rid, fn) (List.mem_cons_self _ _) hi)
      | ok tag =>
        simp only [tagDisplayLoop]
        rw [if_pos hi, htt]
        dsimp only
        rw [ih hall₁]
        simp [List.filter_cons, hi, htt, isOkTag, exTag]
    · simp only [tagDisplayLoop]
      rw [if_neg hi, ih hall₁]
      simp [List.filter_cons, hi]

/-- C5: once the repository prompts succeeded, tag resolution behaves as
follows — if any image function's tag resolution fails with "no image found",
the flow raises `GuidedDeployFailedError` with the build-first message; if no
entry fails that way, the flow completes normally and every entry failing
with "non-local image" is swallowed: its push line is absent from the trace
(only successfully resolved entries are displayed). -/
theorem image_tag_resolution_failures (stack : IacStack)
    (imageRepositories : Option (List (String × String)))
    (imageRepository : Option String) (col : Collab) (a : Answers)
    (evs : List Event) (repos : List (String × String))
    (hImg : stack.hasImageAssets = true)
    (hRepo : repoPromptLoop col.isEcrUrl imageRepositories imageRepository a
      stack.imageFunctionIds = (evs, .ok repos)) :
    ((∃ p ∈ col.functions, p.2.isImage = true ∧
        col.tagTranslation p.2.imageuri = .error .noImage) →
      (promptImageRepository stack imageRepositories imageRepository col a).2 =
        .error noImagesMsg) ∧
    ((∀ p ∈ col.functions, p.2.isImage = true →
        col.tagTranslation p.2.imageuri ≠ .error .noImage) →
      promptImageRepository stack imageRepositories imageRepository col a =
        (evs ++ (col.functions.filter
            (fun p => p.2.isImage && isOkTag (col.tagTranslation p.2.imageuri))).map
            (fun p => Event.echo .imageRepo (tagLineText p.2.imageuri
              (pyShowOptStr (repos.lookup p.1))
              (exTag (col.tagTranslation p.2.imageuri))))
          ++ [Event.echo .imageRepo ""], .ok repos)) := by
  constructor
  · intro hex
    unfold promptImageRepository
    rw [if_pos hImg]
    dsimp only
    rw [hRepo]
    dsimp only
    rw [tagDisplayLoop_noImage col.tagTranslation repos col.functions hex]
  · intro hall
    unfold promptImageRepository
    rw [if_pos hImg]
    dsimp only
    rw [hRepo]
    dsimp only
    rw [tagDisplayLoop_ok col.tagTranslation repos col.functions hall]

/-- The repository URL the witness replies use. -/
def uriW : String := "123456789012.dkr.ecr.us-east-1.amazonaws.com/repo"

/-- A collaborator fixture with one non-local and one locally resolved image
function. -/
def colC5 : Collab := { colW with
  functions := [("F1", ⟨true, "img-nonlocal"⟩), ("F2", ⟨true, "img-local"⟩)]
  tagTranslation := fun s => if s = "img-local" then .ok "latest" else .error .nonLocal }

/-- The repository prompts of the C5 witness run. -/
def evsC5 : List Event := [repoEventFor none none "F1", repoEventFor none none "F2"]

/-- The repositories collected in the C5 witness run. -/
def reposC5 : List (String × String) := [("F1", uriW), ("F2", uriW)]

/-- Witness for C5 at a concrete input: the non-local entry is swallowed and
absent from the displayed lines, the flow completes normally. -/
theorem image_tag_resolution_failures_witness :
    ((∃ p ∈ colC5.functions, p.2.isImage = true ∧
        colC5.tagTranslation p.2.imageuri = .error .noImage) →
      (promptImageRepository stackC6 none none colC5 aW).2 =
        .error noImagesMsg) ∧
    ((∀ p ∈ colC5.functions, p.2.isImage = true →
        colC5.tagTranslation p.2.imageuri ≠ .error .noImage) →
      promptImageRepository stackC6 none none colC5 aW =
        (evsC5 ++ (colC5.functions.filter
            (fun p => p.2.isImage && isOkTag (colC5.tagTranslation p.2.imageuri))).map
            (fun p => Event.echo .imageRepo (tagLineText p.2.imageuri
              (pyShowOptStr (reposC5.lookup p.1))
              (exTag (colC5.tagTranslation p.2.imageuri))))
          ++ [Event.echo .imageRepo ""], .ok reposC5)) :=
  image_tag_resolution_failures stackC6 none none colC5 aW evsC5 reposC5 rfl rfl

/-- A declined confirmation for any resource reported as lacking
authorization makes `prompt_authorization` raise the security-constraints
`GuidedDeployFailedError`. -/
theorem promptAuthorization_declined (a : Answers) (l : List (String × Bool))
    (r : String) (hmem : (r, false) ∈ l) (hno : a.authOkay r = false) :
    (promptAuthorization a l).2 = .error securityMsg := by
  induction l with
  | nil => cases hmem
  | cons hd rest ih =>
    obtain ⟨res, req⟩ := hd
    cases req with
    | true =>
      have hmem₁ : (r, false) ∈ rest := by
        rcases List.mem_cons.mp hmem with heq | htl
        · simp at heq
        · exact htl
      simp only [promptAuthorization]
      rw [if_pos trivial]
      exact ih hmem₁
    | false =>
      by_cases hok : a.authOkay res = true
      · have hmem₁ : (r, false) ∈ rest := by
          rcases List.mem_cons.mp hmem with heq | htl
          · have hre : r = res := congrArg Prod.fst heq
            rw [hre, hok] at hno
            cases hno
          · exact htl
        simp only [promptAuthorization]
        rw [if_neg (by simp), if_pos hok]
        exact ih hmem₁
      · simp only [promptAuthorization]
        rw [if_neg (by simp), if_neg hok]

/-- Every event of the parameter loop belongs to the parameters step. -/
theorem promptParametersAux_steps (cmdline : Option (List (String × String)))
    (a : Answers) (acc : List (String × ParamOverride))
    (params : List (String × ParamProps)) :
    ∀ e ∈ (promptParametersAux cmdline a acc params).1, Event.step e = .parameters := by
  induction params generalizing acc with
  | nil =>
    intro e he
    cases he
  | cons hd tl ih =>
    obtain ⟨key, props⟩ := hd
    intro e he
    simp only [promptParametersAux] at he
    by_cases hne : props.noEcho = true
    · rw [if_pos hne] at he
      rcases List.mem_cons.mp he with rfl | htl
      · rfl
      · exact ih _ e htl
    · rw [if_neg hne] at he
      rcases List.mem_cons.mp he with rfl | htl
      · rfl
      · exact ih _ e htl

/-- Every event of the repository loop belongs to the image-repository step. -/
theorem repoPromptLoopAux_steps (isEcrUrl : String → Bool)
    (imageRepositories : Option (List (String × String)))
    (imageRepository : Option String) (a : Answers)
    (acc : List (String × String)) (resources : List String) :
    ∀ e ∈ (repoPromptLoopAux isEcrUrl imageRepositories imageRepository a acc
      resources).1, Event.step e = .imageRepo := by
  induction resources generalizing acc with
  | nil =>
    intro e he
    cases he
  | cons r rest ih =>
    intro e he
    simp only [repoPromptLoopAux] at he
    by_cases hr : isEcrUrl (a.imageRepo r) = true
    · rw [if_pos hr] at he
      rcases List.mem_cons.mp he with rfl | htl
      · rfl
      · exact ih _ e htl
    · rw [if_neg hr] at he
      rcases List.mem_cons.mp he with rfl | htl
      · rfl
      · cases htl

/-- Every event of the tag display loop belongs to the image-repository
step. -/
theorem tagDisplayLoop_steps (tt : String → Except TagErr String)
    (repos : List (String × String)) (fns : List (String × SamFn)) :
    ∀ e ∈ (tagDisplayLoop tt repos fns).1, Event.step e = .imageRepo := by
  induction fns with
  | nil =>
    intro e he
    cases he
  | cons hd rest ih =>
    obtain ⟨rid, fn⟩ := hd
    intro e he
    simp only [tagDisplayLoop] at he
    by_cases hi : fn.isImage = true
    · rw [if_pos hi] at he
      cases htt : tt fn.imageuri with
      | error te =>
        rw [htt] at he
        cases te with
        | nonLocal => exact ih e he
        | noImage => cases he
      | ok tag =>
        rw [htt] at he
        dsimp only at he
        rcases List.mem_cons.mp he with rfl | htl
        · rfl
        · exact ih e htl
    · rw [if_neg hi] at he
      exact ih e he

/-- Every event of `prompt_image_repository` belongs to the image-repository
step. -/
theorem promptImageRepository_steps (stack : IacStack)
    (imageRepositories : Option (List (String × String)))
    (imageRepository : Option String) (col : Collab) (a : Answers) :
    ∀ e ∈ (promptImageRepository stack imageRepositories imageRepository col a).1,
      Event.step e = .imageRepo := by
  intro e he
  unfold promptImageRepository at he
  by_cases hImg : stack.hasImageAssets = true
  · rw [if_pos hImg] at he
    dsimp only at he
    cases hr : (repoPromptLoop col.isEcrUrl imageRepositories imageRepository a
        stack.imageFunctionIds).2 with
    | error er =>
      rw [hr] at he
      dsimp only at he
      exact repoPromptLoopAux_steps col.isEcrUrl imageRepositories imageRepository
        a [] stack.imageFunctionIds e he
    | ok repos =>
      rw [hr] at he
      dsimp only at he
      cases ht : (tagDisplayLoop col.tagTranslation repos col.functions).2 with
      | error e₂ =>
        rw [ht] at he
        dsimp only at he
        rcases List.mem_append.mp he with h | h
        · exact repoPromptLoopAux_steps col.isEcrUrl imageRepositories
            imageRepository a [] stack.imageFunctionIds e h
        · exact tagDisplayLoop_steps col.tagTranslation repos col.functions e h
      | ok u =>
        rw [ht] at he
        dsimp only at he
        rcases List.mem_append.mp he with h | h
        · rcases List.mem_append.mp h with h₂ | h₂
          · exact repoPromptLoopAux_steps col.isEcrUrl imageRepositories
              imageRepository a [] stack.imageFunctionIds e h₂
          · exact tagDisplayLoop_steps col.tagTranslation repos col.functions e h₂
        · rcases List.mem_cons.mp h with rfl | habs
          · rfl
          · cases habs
  · rw [if_neg hImg] at he
    cases he

/-- Every event of `prompt_authorization` belongs to the authorization
step. -/
theorem promptAuthorization_steps (a : Answers) (l : List (String × Bool)) :
    ∀ e ∈ (promptAuthorization a l).1, Event.step e = .authorization := by
  induction l with
  | nil =>
    intro e he
    cases he
  | cons hd rest ih =>
    obtain ⟨res, req⟩ := hd
    intro e he
    simp only [promptAuthorization] at he
    cases req with
    | true =>
      rw [if_pos rfl] at he
      exact ih e he
    | false =>
      rw [if_neg (by simp)] at he
      by_cases hok : a.authOkay res = true
      · rw [if_pos hok] at he
        rcases List.mem_cons.mp he with rfl | htl
        · rfl
        · exact ih e htl
      · rw [if_neg hok] at he
        rcases List.mem_cons.mp he with rfl | htl
        · rfl
        · cases htl

/-- C4: once the stack resolved and the image-repository step succeeded, a
declined confirmation for any resource reported as lacking authorization
makes the whole guided flow fail with the security-constraints
`GuidedDeployFailedError`, and no event of any later step (code signing,
save-to-config prompts, bucket provisioning) appears in the recorded trace. -/
theorem declined_authorization_aborts_flow (c : Ctx) (col : Collab) (a : Answers)
    (stack : IacStack) (newName : String) (repos : List (String × String))
    (r : String)
    (hg : getIacStack col.findStackByName col.defaultStack a.stackName =
      .ok (stack, newName))
    (hi : (promptImageRepository stack c.imageRepositories c.imageRepository
      col a).2 = .ok repos)
    (hmem : (r, false) ∈ col.authResults)
    (hno : a.authOkay r = false) :
    (guidedPrompts c col a).2 = .error securityMsg ∧
    ∀ e ∈ (guidedPrompts c col a).1,
      Event.step e ≠ .codeSigning ∧ Event.step e ≠ .saveConfig ∧
        Event.step e ≠ .bucket := by
  have herr := promptAuthorization_declined a col.authResults r hmem hno
  unfold guidedPrompts
  dsimp only
  rw [hg]
  dsimp only
  rw [hi]
  dsimp only
  rw [herr]
  dsimp only
  constructor
  · rfl
  · intro e he
    simp only [List.mem_cons, List.mem_append, List.not_mem_nil, or_false] at he
    rcases he with ((((((rfl | rfl) | rfl) | hp) | hi₂) | (rfl | rfl | rfl | rfl)) | hcap) | hau
    · exact ⟨by simp [Event.step], by simp [Event.step], by simp [Event.step]⟩
    · exact ⟨by simp [Event.step], by simp [Event.step], by simp [Event.step]⟩
    · exact ⟨by simp [Event.step], by simp [Event.step], by simp [Event.step]⟩
    · have hstep := promptParametersAux_steps c.parameterOverridesFromCmdline a []
        stack.overrideableParameters e hp
      refine ⟨?_, ?_, ?_⟩ <;> rw [hstep] <;> decide
    · have hstep := promptImageRepository_steps stack c.imageRepositories
        c.imageRepository col a e hi₂
      refine ⟨?_, ?_, ?_⟩ <;> rw [hstep] <;> decide
    · exact ⟨by simp [Event.step], by simp [Event.step], by simp [Event.step]⟩
    · exact ⟨by simp [Event.step], by simp [Event.step], by simp [Event.step]⟩
    · exact ⟨by simp [Event.step], by simp [Event.step], by simp [Event.step]⟩
    · exact ⟨by simp [Event.step], by simp [Event.step], by simp [Event.step]⟩
    · by_cases hc : a.capabilitiesConfirm = false
      · rw [if_pos hc] at hcap
        dsimp only at hcap
        rcases List.mem_cons.mp hcap with rfl | habs
        · exact ⟨by simp [Event.step], by simp [Event.step], by simp [Event.step]⟩
        · cases habs
      · rw [if_neg hc] at hcap
        cases hcap
    · have hstep := promptAuthorization_steps a col.authResults e hau
      refine ⟨?_, ?_, ?_⟩ <;> rw [hstep] <;> decide

/-- A collaborator fixture whose authorization scanner reports one resource
as lacking authorization. -/
def colC4 : Collab := { colW with authResults := [("MyApi", false)] }

/-- A replies fixture that declines the authorization confirmation. -/
def aC4 : Answers := { aW with authOkay := fun _ => false }

/-- Witness for C4 at a concrete run: the flow fails with the
security-constraints error and no code-signing / save-config / bucket event
was recorded. -/
theorem declined_authorization_aborts_flow_witness :
    (guidedPrompts ctxW colC4 aC4).2 = .error securityMsg ∧
    ∀ e ∈ (guidedPrompts ctxW colC4 aC4).1,
      Event.step e ≠ .codeSigning ∧ Event.step e ≠ .saveConfig ∧
        Event.step e ≠ .bucket :=
  declined_authorization_aborts_flow ctxW colC4 aC4 stackW "sam-app" [] "MyApi"
    rfl rfl (by decide) rfl
